import Mathlib

/-!
A shallow embedding of the blog-backend server (`server.js` together with the
`Post` mongoose model).  Users and posts are stored in lists standing for the
mongo collections; each request handler is a pure function from the store and
the request data to the (possibly updated) store and the HTTP response.  The
authenticated requester is given as a user id, standing for `req.user.id` as
set by the `auth` middleware after token verification.  External collaborators
(bcrypt comparison, fresh object ids, the current time, the hash produced for
a new password) enter as explicit parameters.
-/

/-- A stored user document (`User` model): id, name, email, hashed password. -/
structure UserR where
  id : Nat
  name : String
  email : String
  password : String
deriving DecidableEq, Repr

/-- A stored post document (`Post` model, `src/models/Post.js`):
id, owning user reference, title, body, creation date. -/
structure PostR where
  id : Nat
  user : Nat
  title : String
  body : String
  date : Nat
deriving DecidableEq, Repr

/-- The document store: the `users` and `posts` collections. -/
structure Store where
  users : List UserR
  posts : List PostR
deriving DecidableEq, Repr

/-- A session token (JWT).  Modelled from the spec: a signed, self-contained
credential encoding the user id and an expiry; the `jsonwebtoken` library
itself is external to the repository.  `sig` is the signature over the
payload. -/
structure Token where
  userId : Nat
  exp : Nat
  sig : Nat
deriving DecidableEq, Repr

/-- An HTTP response body, covering the shapes the handlers produce. -/
inductive Body where
  | text (s : String)
  | jsonMsg (msg : String)
  | jsonErrors (msgs : List String)
  | jsonPost (p : PostR)
  | jsonPosts (ps : List PostR)
  | jsonToken (t : Token)
deriving DecidableEq, Repr

/-- An HTTP response: status code and body.  `res.json(x)` with no explicit
status is status 200. -/
structure Response where
  status : Nat
  body : Body
deriving DecidableEq, Repr

/-- A request field: `none` when absent from the JSON body (`undefined`). -/
abbrev ReqField := Option String

/-- `express-validator` `.not().isEmpty()` failure: the field is absent or the
empty string. -/
def isEmptyField : ReqField → Bool
  | none => true
  | some s => s == ""

/-- Modelled from the spec: the `isEmail` check of the external
`express-validator` library, modelled as a nonempty local part and a nonempty
domain separated by a single at-sign. -/
def isEmail : ReqField → Bool
  | none => false
  | some s =>
    match s.toList.splitOn '@' with
    | [l, d] => !l.isEmpty && !d.isEmpty
    | _ => false

/-- `express-validator` `.isLength(min 6)`: present and at least 6 long. -/
def minLength6 : ReqField → Bool
  | none => false
  | some s => 6 ≤ s.length

/-- The `errors.array()` messages for `POST /api/login`, in check order. -/
def validateLogin (email password : ReqField) : List String :=
  (if isEmail email then [] else ["Please enter a valid email"]) ++
  (if password.isSome then [] else ["A password is required!"])

/-- The `errors.array()` messages for `POST /api/users`, in check order. -/
def validateRegister (name email password : ReqField) : List String :=
  (if isEmptyField name then ["Please enter your name"] else []) ++
  (if isEmail email then [] else ["Please enter your email"]) ++
  (if minLength6 password then []
   else ["Please enter a password with at least 6 characters"])

/-- The `errors.array()` messages for `POST /api/posts`, in check order. -/
def validateCreatePost (title body : ReqField) : List String :=
  (if isEmptyField title then ["Title text is required!"] else []) ++
  (if isEmptyField body then ["Body test is required!"] else [])

/-- `Post.findById` on the posts collection. -/
def findPost (posts : List PostR) (pid : Nat) : Option PostR :=
  posts.find? (fun p => p.id == pid)

/-- `User.findById` on the users collection. -/
def findUserById (users : List UserR) (uid : Nat) : Option UserR :=
  users.find? (fun u => u.id == uid)

/-- `User.findOne (with email)` on the users collection. -/
def findUserByEmail (users : List UserR) (e : String) : Option UserR :=
  users.find? (fun u => u.email == e)

/-- Modelled from the spec: the signature the external `jsonwebtoken` library
computes over the payload with the secret. -/
def signPayload (userId expiry secret : Nat) : Nat :=
  Nat.pair (Nat.pair userId expiry) secret

/-- Modelled from the spec: `issue(userId, secret, ttl)` of the token issuer;
the expiry is the issue time plus the ttl. -/
def issueToken (userId secret now ttl : Nat) : Token :=
  ⟨userId, now + ttl, signPayload userId (now + ttl) secret⟩

/-- Result of token verification. -/
inductive VerifyResult where
  | ok (userId : Nat)
  | expired
  | invalidToken
deriving DecidableEq, Repr

/-- Modelled from the spec: `verify(token, secret)` — `InvalidToken` if the
signature does not match, `Expired` if the current time exceeds the encoded
expiry, otherwise the embedded user id. -/
def verifyToken (t : Token) (secret now : Nat) : VerifyResult :=
  if t.sig ≠ signPayload t.userId t.exp secret then .invalidToken
  else if t.exp < now then .expired
  else .ok t.userId

/-- `expiresIn: "10hr"` — ten hours, in seconds. -/
def tenHoursSeconds : Nat := 36000

/-- `returnToken(user, res)`: signs `\x7buser: \x7bid: user.id\x7d\x7d` with
the configured secret and a 10-hour expiry. -/
def returnToken (u : UserR) (secret now : Nat) : Token :=
  issueToken u.id secret now tenHoursSeconds

/-- `POST /api/login` handler. `cmp` is the external `bcrypt.compare`. -/
def loginHandler (store : Store) (email password : ReqField)
    (cmp : String → String → Bool) (secret now : Nat) : Response :=
  let errs := validateLogin email password
  if errs ≠ [] then ⟨422, .jsonErrors errs⟩
  else
    match findUserByEmail store.users (email.getD "") with
    | none => ⟨400, .jsonErrors ["Invaild email or password!"]⟩
    | some u =>
      if !cmp (password.getD "") u.password then
        ⟨400, .jsonErrors ["Invaild email or password!"]⟩
      else ⟨200, .jsonToken (returnToken u secret now)⟩

/-- `POST /api/users` handler.  `hashed` is the external `bcrypt.hash` output
for the supplied password, `freshId` the store-assigned id of the new user. -/
def registerHandler (store : Store) (name email password : ReqField)
    (hashed : String) (freshId secret now : Nat) : Store × Response :=
  let errs := validateRegister name email password
  if errs ≠ [] then (store, ⟨422, .jsonErrors errs⟩)
  else
    match findUserByEmail store.users (email.getD "") with
    | some _ => (store, ⟨400, .jsonErrors ["User already exists"]⟩)
    | none =>
      let u : UserR := ⟨freshId, name.getD "", email.getD "", hashed⟩
      ({ store with users := store.users ++ [u] },
       ⟨200, .jsonToken (returnToken u secret now)⟩)

/-- The sort key of `Post.find().sort(date: -1)`: date descending. -/
def dateDesc (a b : PostR) : Prop := b.date ≤ a.date

instance : DecidableRel dateDesc :=
  fun a b => inferInstanceAs (Decidable (b.date ≤ a.date))

instance : IsTotal PostR dateDesc := ⟨fun a b => Nat.le_total b.date a.date⟩

instance : IsTrans PostR dateDesc := ⟨fun _ _ _ h1 h2 => Nat.le_trans h2 h1⟩

/-- `GET /api/posts` handler: `Post.find().sort(date: -1)`, newest first. -/
def getPostsHandler (store : Store) : Response :=
  ⟨200, .jsonPosts (List.insertionSort dateDesc store.posts)⟩

/-- `GET /api/posts/:id` handler. -/
def getPostHandler (store : Store) (pid : Nat) : Response :=
  match findPost store.posts pid with
  | none => ⟨404, .jsonMsg "Post not found!"⟩
  | some p => ⟨200, .jsonPost p⟩

/-- `POST /api/posts` handler.  `requester` is `req.user.id`; `freshId` and
`now` are the store-assigned id and the default `Date.now` of the new post.
When `User.findById` yields null, reading `user.id` throws and the catch block
answers 500. -/
def createPostHandler (store : Store) (requester : Nat) (title body : ReqField)
    (freshId now : Nat) : Store × Response :=
  let errs := validateCreatePost title body
  if errs ≠ [] then (store, ⟨400, .jsonErrors errs⟩)
  else
    match findUserById store.users requester with
    | none => (store, ⟨500, .text "Server error"⟩)
    | some u =>
      let p : PostR := ⟨freshId, u.id, title.getD "", body.getD "", now⟩
      ({ store with posts := store.posts ++ [p] }, ⟨200, .jsonPost p⟩)

/-- `DELETE /api/posts/:id` handler. -/
def deletePostHandler (store : Store) (requester pid : Nat) : Store × Response :=
  match findPost store.posts pid with
  | none => (store, ⟨404, .jsonMsg "Post not found!"⟩)
  | some p =>
    if p.user ≠ requester then (store, ⟨401, .jsonMsg "User not authorized!"⟩)
    else ({ store with posts := store.posts.eraseP (fun q => q.id == pid) },
          ⟨200, .jsonMsg "Post removed!"⟩)

/-- JavaScript `a || b` on a request field: the default is taken when the
field is absent or the empty string (both falsy). -/
def jsOr (v : ReqField) (d : String) : String :=
  match v with
  | none => d
  | some s => if s == "" then d else s

set_option linter.unusedVariables false in
/-- `PUT /api/posts/:id` handler.  The source assigns
`post.title = title || post.title` and `post.body = title || post.body` —
the second line reads the `title` field, as written at
src/models/Post.js:483.  The success path ends after `post.save()` with no
`res` call at all, hence the `Option Response` with `none` for success.
The `body` argument is kept although the source never reads it. -/
def putPostHandler (store : Store) (requester pid : Nat) (title body : ReqField) :
    Store × Option Response :=
  match findPost store.posts pid with
  | none => (store, some ⟨404, .jsonMsg "Post not found!"⟩)
  | some p =>
    if p.user ≠ requester then (store, some ⟨401, .jsonMsg "User not authorized!"⟩)
    else
      let p2 : PostR := { p with title := jsOr title p.title,
                                 body := jsOr title p.body }
      ({ store with posts := store.posts.map (fun q => if q.id == pid then p2 else q) },
       none)

/-! ## Theorems -/

/-- C1: evaluation of the code at the failing input.  A PUT by the owner of
post 10 supplying title "newT" and body "newB" stores body "newT": the
handler assigns the post body from the `title` field (`post.body = title ||
post.body`), not from the `body` field as the spec states. -/
theorem c1_put_stores_title_into_body :
    (putPostHandler ⟨[⟨1, "alice", "a@b.com", "h"⟩], [⟨10, 1, "oldT", "oldB", 5⟩]⟩
        1 10 (some "newT") (some "newB")).1.posts
      = [⟨10, 1, "newT", "newT", 5⟩] := by
  rfl

/-- C2: a DELETE or PUT on a stored post by an authenticated requester who is
not its owner answers 401 and leaves the store — in particular the post's
owner, title, body and date — exactly unchanged. -/
theorem c2_non_owner_mutation_rejected (store : Store) (v pid : Nat) (p : PostR)
    (title body : ReqField)
    (hfind : findPost store.posts pid = some p) (hne : p.user ≠ v) :
    deletePostHandler store v pid
        = (store, ⟨401, .jsonMsg "User not authorized!"⟩) ∧
    putPostHandler store v pid title body
        = (store, some ⟨401, .jsonMsg "User not authorized!"⟩) := by
  constructor
  · simp [deletePostHandler, hfind, hne]
  · simp [putPostHandler, hfind, hne]

/-- C2 witness: a concrete non-owner DELETE and PUT, via
`c2_non_owner_mutation_rejected` at requester 2 on a post owned by 1. -/
theorem c2_witness :
    deletePostHandler ⟨[], [⟨10, 1, "t", "b", 5⟩]⟩ 2 10
        = (⟨[], [⟨10, 1, "t", "b", 5⟩]⟩, ⟨401, .jsonMsg "User not authorized!"⟩) ∧
    putPostHandler ⟨[], [⟨10, 1, "t", "b", 5⟩]⟩ 2 10 (some "x") (some "y")
        = (⟨[], [⟨10, 1, "t", "b", 5⟩]⟩, some ⟨401, .jsonMsg "User not authorized!"⟩) :=
  c2_non_owner_mutation_rejected ⟨[], [⟨10, 1, "t", "b", 5⟩]⟩ 2 10
    ⟨10, 1, "t", "b", 5⟩ (some "x") (some "y") rfl (by decide)

/-- C7: an authenticated GET of a single post answers 404 when the id
resolves to no stored post, and the post itself with status 200 when it
does. -/
theorem c7_get_post_found_or_404 (store : Store) (pid : Nat) :
    (findPost store.posts pid = none →
      getPostHandler store pid = ⟨404, .jsonMsg "Post not found!"⟩) ∧
    (∀ p, findPost store.posts pid = some p →
      getPostHandler store pid = ⟨200, .jsonPost p⟩) := by
  constructor
  · intro h
    simp [getPostHandler, h]
  · intro p h
    simp [getPostHandler, h]

/-- C7 witness: both branches of `c7_get_post_found_or_404` at a concrete
store holding the single post 1. -/
theorem c7_witness :
    getPostHandler ⟨[], [⟨1, 1, "t", "b", 0⟩]⟩ 2 = ⟨404, .jsonMsg "Post not found!"⟩ ∧
    getPostHandler ⟨[], [⟨1, 1, "t", "b", 0⟩]⟩ 1 = ⟨200, .jsonPost ⟨1, 1, "t", "b", 0⟩⟩ :=
  ⟨(c7_get_post_found_or_404 ⟨[], [⟨1, 1, "t", "b", 0⟩]⟩ 2).1 rfl,
   (c7_get_post_found_or_404 ⟨[], [⟨1, 1, "t", "b", 0⟩]⟩ 1).2 ⟨1, 1, "t", "b", 0⟩ rfl⟩

/-- C9: when a PUT finds the post and the requester is its owner, the handler
runs to the end of the try block without ever calling `res`: no status code
and no body are produced on the success path. -/
theorem c9_put_success_sends_no_response (store : Store) (pid : Nat)
    (title body : ReqField) (p : PostR)
    (hfind : findPost store.posts pid = some p) :
    (putPostHandler store p.user pid title body).2 = none := by
  simp [putPostHandler, hfind]

/-- C9 witness: a concrete owner PUT, via `c9_put_success_sends_no_response`
on post 10 owned by requester 1. -/
theorem c9_witness :
    (putPostHandler ⟨[], [⟨10, 1, "t", "b", 5⟩]⟩ 1 10 (some "x") (some "y")).2 = none :=
  c9_put_success_sends_no_response ⟨[], [⟨10, 1, "t", "b", 5⟩]⟩ 10
    (some "x") (some "y") ⟨10, 1, "t", "b", 5⟩ rfl

/-- Found user has the searched id. -/
theorem findUserById_id (users : List UserR) (uid : Nat) (u : UserR)
    (h : findUserById users uid = some u) : u.id = uid := by
  have := List.find?_some h
  simpa using this

/-- C3: an authenticated POST of a post with nonempty title and body by a
stored user appends a post whose owning-user reference is the requester's
id, and answers 200 with that post. -/
theorem c3_create_post_owner_is_requester (store : Store) (uid freshId now : Nat)
    (t b : String) (u : UserR)
    (ht : t ≠ "") (hb : b ≠ "")
    (hu : findUserById store.users uid = some u) :
    createPostHandler store uid (some t) (some b) freshId now =
      ({ store with posts := store.posts ++ [⟨freshId, uid, t, b, now⟩] },
       ⟨200, .jsonPost ⟨freshId, uid, t, b, now⟩⟩) := by
  have hid : u.id = uid := findUserById_id store.users uid u hu
  simp [createPostHandler, validateCreatePost, isEmptyField, ht, hb, hu, hid]

/-- C3 witness: user 1 creates a concrete post, via
`c3_create_post_owner_is_requester`. -/
theorem c3_witness :
    createPostHandler ⟨[⟨1, "alice", "a@b.com", "h"⟩], []⟩ 1 (some "Hi") (some "World") 7 9 =
      (⟨[⟨1, "alice", "a@b.com", "h"⟩], [⟨7, 1, "Hi", "World", 9⟩]⟩,
       ⟨200, .jsonPost ⟨7, 1, "Hi", "World", 9⟩⟩) :=
  c3_create_post_owner_is_requester ⟨[⟨1, "alice", "a@b.com", "h"⟩], []⟩ 1 7 9
    "Hi" "World" ⟨1, "alice", "a@b.com", "h"⟩ (by decide) (by decide) rfl

/-- C4 counterexample: an authenticated POST of a post with the title field
missing is answered with status 400, not 422, and no post is created. -/
theorem c4_counterexample_status_is_400 :
    (createPostHandler ⟨[⟨1, "a", "a@b.com", "h"⟩], []⟩ 1 none (some "b") 7 9).2.status ≠ 422 ∧
    (createPostHandler ⟨[⟨1, "a", "a@b.com", "h"⟩], []⟩ 1 none (some "b") 7 9).2 =
      ⟨400, .jsonErrors ["Title text is required!"]⟩ ∧
    (createPostHandler ⟨[⟨1, "a", "a@b.com", "h"⟩], []⟩ 1 none (some "b") 7 9).1 =
      ⟨[⟨1, "a", "a@b.com", "h"⟩], []⟩ := by
  refine ⟨?_, rfl, rfl⟩
  intro h
  simp [createPostHandler, validateCreatePost, isEmptyField] at h

/-- C4 amended: an authenticated POST of a post whose title or body is empty
or missing is answered with status 400 and the structured, nonempty list of
validation errors, and the store — in particular the posts collection — is
unchanged. -/
theorem c4_empty_fields_rejected_400 (store : Store) (uid freshId now : Nat)
    (title body : ReqField)
    (h : isEmptyField title = true ∨ isEmptyField body = true) :
    createPostHandler store uid title body freshId now =
      (store, ⟨400, .jsonErrors (validateCreatePost title body)⟩) ∧
    validateCreatePost title body ≠ [] := by
  have hne : validateCreatePost title body ≠ [] := by
    rcases h with h | h <;> simp [validateCreatePost, h]
  exact ⟨by simp [createPostHandler, hne], hne⟩

/-- C4 witness: a concrete empty-title request, via
`c4_empty_fields_rejected_400`. -/
theorem c4_witness :
    createPostHandler ⟨[⟨1, "a", "a@b.com", "h"⟩], []⟩ 1 (some "") (some "b") 7 9 =
      (⟨[⟨1, "a", "a@b.com", "h"⟩], []⟩,
       ⟨400, .jsonErrors ["Title text is required!"]⟩) :=
  (c4_empty_fields_rejected_400 ⟨[⟨1, "a", "a@b.com", "h"⟩], []⟩ 1 7 9
    (some "") (some "b") (Or.inl rfl)).1

/-- C5 counterexample: a registration request whose email equals a stored
user's email but whose name field is empty is answered 422 (validation
failure), not 400; the claim as stated, quantifying over every request with
a duplicate email, therefore fails.  The stored users are unchanged. -/
theorem c5_counterexample_status_is_422 :
    (registerHandler ⟨[⟨1, "alice", "a@b.com", "h"⟩], []⟩ (some "") (some "a@b.com")
        (some "123456") "h2" 2 0 9).2.status ≠ 400 ∧
    (registerHandler ⟨[⟨1, "alice", "a@b.com", "h"⟩], []⟩ (some "") (some "a@b.com")
        (some "123456") "h2" 2 0 9).2 =
      ⟨422, .jsonErrors ["Please enter your name"]⟩ ∧
    (registerHandler ⟨[⟨1, "alice", "a@b.com", "h"⟩], []⟩ (some "") (some "a@b.com")
        (some "123456") "h2" 2 0 9).1.users = [⟨1, "alice", "a@b.com", "h"⟩] := by
  refine ⟨?_, rfl, rfl⟩
  intro h
  simp [registerHandler, validateRegister, isEmptyField, isEmail, minLength6] at h

/-- C5 amended: a registration request that passes field validation and whose
email equals the email of an already-stored user is answered 400 with the
"User already exists" error, and the store — in particular the set of stored
user records — is unchanged. -/
theorem c5_duplicate_email_rejected_400 (store : Store) (e : String)
    (name password : ReqField) (hashed : String) (freshId secret now : Nat)
    (hv : validateRegister name (some e) password = [])
    (hdup : ∃ u ∈ store.users, u.email = e) :
    registerHandler store name (some e) password hashed freshId secret now =
      (store, ⟨400, .jsonErrors ["User already exists"]⟩) := by
  obtain ⟨u, hu, he⟩ := hdup
  have hfind : findUserByEmail store.users e ≠ none := by
    simp only [findUserByEmail, ne_eq, List.find?_eq_none, not_forall]
    exact ⟨u, hu, by simp [he]⟩
  match hcase : findUserByEmail store.users e with
  | none => exact absurd hcase hfind
  | some w => simp [registerHandler, hv, hcase]

/-- C5 witness: re-registering the stored email with valid fields, via
`c5_duplicate_email_rejected_400`. -/
theorem c5_witness :
    registerHandler ⟨[⟨1, "alice", "a@b.com", "h"⟩], []⟩ (some "bob") (some "a@b.com")
        (some "123456") "h2" 2 0 9 =
      (⟨[⟨1, "alice", "a@b.com", "h"⟩], []⟩,
       ⟨400, .jsonErrors ["User already exists"]⟩) :=
  c5_duplicate_email_rejected_400 ⟨[⟨1, "alice", "a@b.com", "h"⟩], []⟩ "a@b.com"
    (some "bob") (some "123456") "h2" 2 0 9 (by decide)
    ⟨⟨1, "alice", "a@b.com", "h"⟩, by decide, rfl⟩

/-- C6: the authenticated post listing answers 200 with the date-descending
sort of all stored posts: the returned list is a permutation of the posts
collection, it is sorted newest-first, and a post strictly newer than every
other stored post appears first. -/
theorem c6_posts_listed_newest_first (store : Store) :
    getPostsHandler store
        = ⟨200, .jsonPosts (List.insertionSort dateDesc store.posts)⟩ ∧
    (List.insertionSort dateDesc store.posts).Perm store.posts ∧
    List.Sorted dateDesc (List.insertionSort dateDesc store.posts) ∧
    (∀ p ∈ store.posts, (∀ q ∈ store.posts, q ≠ p → q.date < p.date) →
      (List.insertionSort dateDesc store.posts).head? = some p) := by
  refine ⟨rfl, List.perm_insertionSort _ _, List.sorted_insertionSort _ _, ?_⟩
  intro p hp hmax
  have hperm : (List.insertionSort dateDesc store.posts).Perm store.posts :=
    List.perm_insertionSort _ _
  have hsort : List.Sorted dateDesc (List.insertionSort dateDesc store.posts) :=
    List.sorted_insertionSort _ _
  have hpl : p ∈ List.insertionSort dateDesc store.posts := hperm.mem_iff.mpr hp
  cases hcase : List.insertionSort dateDesc store.posts with
  | nil =>
    rw [hcase] at hpl
    exact absurd hpl (List.not_mem_nil p)
  | cons a t =>
    rw [hcase] at hpl hsort hperm
    rcases List.mem_cons.mp hpl with h | h
    · simp [h]
    · have hap : dateDesc a p := (List.sorted_cons.mp hsort).1 p h
      have ha : a ∈ store.posts := hperm.mem_iff.mp (List.mem_cons_self a t)
      by_cases hne : a = p
      · simp [hne]
      · have hlt : a.date < p.date := hmax a ha hne
        unfold dateDesc at hap
        omega

/-- C6 witness: with two stored posts of dates 1 and 5, the listing via
`c6_posts_listed_newest_first` puts the date-5 post first. -/
theorem c6_witness :
    getPostsHandler ⟨[], [⟨1, 1, "a", "b", 1⟩, ⟨2, 1, "c", "d", 5⟩]⟩ =
      ⟨200, .jsonPosts (List.insertionSort dateDesc
        [⟨1, 1, "a", "b", 1⟩, ⟨2, 1, "c", "d", 5⟩])⟩ ∧
    (List.insertionSort dateDesc
        [(⟨1, 1, "a", "b", 1⟩ : PostR), ⟨2, 1, "c", "d", 5⟩]).head?
      = some ⟨2, 1, "c", "d", 5⟩ := by
  have h := c6_posts_listed_newest_first ⟨[], [⟨1, 1, "a", "b", 1⟩, ⟨2, 1, "c", "d", 5⟩]⟩
  exact ⟨h.1, h.2.2.2 ⟨2, 1, "c", "d", 5⟩ (by decide) (by decide)⟩

/-- C8: the token minted by `returnToken` for user U carries U's id and an
expiry exactly 10 hours after issuance; verification with the issuing secret
at any time before the expiry yields U's id, and at any time after the
expiry fails as expired — so a token is never valid after its expiry. -/
theorem c8_token_lifecycle (u : UserR) (secret now : Nat) :
    (returnToken u secret now).userId = u.id ∧
    (returnToken u secret now).exp = now + tenHoursSeconds ∧
    (∀ t, t < now + tenHoursSeconds →
      verifyToken (returnToken u secret now) secret t = .ok u.id) ∧
    (∀ t, now + tenHoursSeconds < t →
      verifyToken (returnToken u secret now) secret t = .expired) := by
  refine ⟨rfl, rfl, ?_, ?_⟩ <;> intro t ht <;>
    simp [verifyToken, returnToken, issueToken] <;> omega

/-- C8 witness: a concrete token for user 1 issued at time 0, via
`c8_token_lifecycle`: valid at time 35999, expired at time 36001. -/
theorem c8_witness :
    verifyToken (returnToken ⟨1, "alice", "a@b.com", "h"⟩ 42 0) 42 35999
        = .ok 1 ∧
    verifyToken (returnToken ⟨1, "alice", "a@b.com", "h"⟩ 42 0) 42 36001
        = .expired := by
  have h := c8_token_lifecycle ⟨1, "alice", "a@b.com", "h"⟩ 42 0
  exact ⟨h.2.2.1 35999 (by decide), h.2.2.2 36001 (by decide)⟩

/-- C10: two failing login requests — one whose email matches no stored
user, one whose email matches a stored user but whose password does not —
produce identical responses: status 400 with the same single error message,
revealing nothing about whether the email is registered. -/
theorem c10_login_failures_indistinguishable (store : Store)
    (e1 p1 e2 p2 : ReqField) (cmp : String → String → Bool) (secret now : Nat)
    (u : UserR)
    (hv1 : validateLogin e1 p1 = []) (hv2 : validateLogin e2 p2 = [])
    (h1 : findUserByEmail store.users (e1.getD "") = none)
    (h2 : findUserByEmail store.users (e2.getD "") = some u)
    (h3 : cmp (p2.getD "") u.password = false) :
    loginHandler store e1 p1 cmp secret now = loginHandler store e2 p2 cmp secret now ∧
    loginHandler store e1 p1 cmp secret now
      = ⟨400, .jsonErrors ["Invaild email or password!"]⟩ := by
  have r1 : loginHandler store e1 p1 cmp secret now
      = ⟨400, .jsonErrors ["Invaild email or password!"]⟩ := by
    simp [loginHandler, hv1, h1]
  have r2 : loginHandler store e2 p2 cmp secret now
      = ⟨400, .jsonErrors ["Invaild email or password!"]⟩ := by
    simp [loginHandler, hv2, h2, h3]
  exact ⟨r1.trans r2.symm, r1⟩

/-- C10 witness: unknown email vs wrong password against a one-user store,
via `c10_login_failures_indistinguishable` with a comparison that rejects. -/
theorem c10_witness :
    loginHandler ⟨[⟨1, "alice", "a@b.com", "h"⟩], []⟩ (some "x@y.com") (some "pw")
        (fun _ _ => false) 42 0
      = loginHandler ⟨[⟨1, "alice", "a@b.com", "h"⟩], []⟩ (some "a@b.com") (some "wrong")
        (fun _ _ => false) 42 0 ∧
    loginHandler ⟨[⟨1, "alice", "a@b.com", "h"⟩], []⟩ (some "x@y.com") (some "pw")
        (fun _ _ => false) 42 0
      = ⟨400, .jsonErrors ["Invaild email or password!"]⟩ :=
  c10_login_failures_indistinguishable ⟨[⟨1, "alice", "a@b.com", "h"⟩], []⟩
    (some "x@y.com") (some "pw") (some "a@b.com") (some "wrong")
    (fun _ _ => false) 42 0 ⟨1, "alice", "a@b.com", "h"⟩
    (by decide) (by decide) rfl rfl rfl
